import Mathlib

/-!
Verification development for the CRM_BOLT repository.

Part 1 embeds the SQL migration (src/unnamed/part_000): the provisioning
trigger `handle_new_auth_user` and the access validator
`validate_login_access`, over a database state holding the three known
tenant partitions `public.profiles`, `quimicinter.profiles`,
`qalinkforce.profiles`.

Part 2 embeds the invoice-list view model
(src/src/components/billing/InvoiceList.tsx): the client-side
filter/sort pipeline of `loadInvoices`, the monthly statistics of
`loadStats`, and the state-transition handlers `handleFilter`,
`handleSort`, the date-range inputs, and `handleExport`.

Modelling decisions, stated once here:
* uuids are `Nat`; timestamps (`now()`, invoice `issue_date`) are `Nat` —
  ISO-8601 date strings compare lexicographically exactly as their
  chronological order, so both the string comparisons and the
  `Date`-timestamp comparisons of the source map to `Nat` comparisons;
* SQL `NULL` / absent JSON fields / absent headers are `Option`;
* a plpgsql `EXECUTE` against a schema that does not exist raises, so
  `handle_new_auth_user` returns `Option DB` with `none` for that error;
* the `UNION ALL ... LIMIT 1` query of `validate_login_access` has no
  `ORDER BY`; rows are produced in the syntactic branch order
  (public, quimicinter, qalinkforce), and `LIMIT 1` takes the first;
* JavaScript `Array.prototype.sort` is required to be stable (ES2019),
  and a stable sort by a consistent comparator determines the output
  list uniquely, so it is embedded as Mathlib's stable `insertionSort`
  over the preorder `cmpInvoice cfg a b ≤ 0`.
-/

namespace CRM

/-- A row of a tenant's `profiles` table. -/
structure Profile where
  id : Nat
  email : String
  full_name : String
  role : String
  status : String
  schema_name : String
  created_at : Nat
  updated_at : Nat
deriving DecidableEq

/-- A new `auth.users` row as seen by the trigger: id, email, and the
`raw_user_meta_data` fields the function reads. -/
structure AuthUser where
  id : Nat
  email : String
  raw_schema_name : Option String
  raw_role : Option String
  raw_full_name : Option String
deriving DecidableEq

/-- Database state: the three known tenant partitions of `profiles`. -/
structure DB where
  pub : List Profile
  quimicinter : List Profile
  qalinkforce : List Profile
deriving DecidableEq

/-- `COALESCE(NEW.raw_user_meta_data->>'schema_name',
current_setting('request.headers',true)::json->>'x-schema-name', 'public')`. -/
def resolveSchema (u : AuthUser) (hdr : Option String) : String :=
  match u.raw_schema_name with
  | some s => s
  | none =>
    match hdr with
    | some h => h
    | none => "public"

/-- `COALESCE(NEW.raw_user_meta_data->>'role', CASE WHEN NOT EXISTS
(SELECT 1 FROM profiles WHERE schema_name = v_schema) THEN 'admin' ELSE
'user' END)`.  With `search_path = public`, the bare `profiles` is the
default partition. -/
def resolveRole (u : AuthUser) (vschema : String) (db : DB) : String :=
  match u.raw_role with
  | some r => r
  | none => if db.pub.any (fun p => p.schema_name == vschema) then "user" else "admin"

/-- Look up a partition by schema name; `none` for an unknown schema. -/
def getPart (db : DB) (s : String) : Option (List Profile) :=
  if s = "public" then some db.pub
  else if s = "quimicinter" then some db.quimicinter
  else if s = "qalinkforce" then some db.qalinkforce
  else none

/-- Replace a known partition; identity for an unknown schema. -/
def setPart (db : DB) (s : String) (l : List Profile) : DB :=
  if s = "public" then { db with pub := l }
  else if s = "quimicinter" then { db with quimicinter := l }
  else if s = "qalinkforce" then { db with qalinkforce := l }
  else db

/-- `INSERT ... ON CONFLICT (id) DO UPDATE`: if a row with the same id
exists, the conflicting row is updated by `upd`; otherwise the new row is
appended. -/
def upsert (part : List Profile) (row : Profile) (upd : Profile → Profile) : List Profile :=
  if part.any (fun r => r.id == row.id) then
    part.map (fun r => if r.id == row.id then upd r else r)
  else part ++ [row]

/-- The VALUES tuple of the first (resolved-schema) insert. -/
def mainRow (u : AuthUser) (vschema vrole : String) (now : Nat) : Profile :=
  { id := u.id, email := u.email, full_name := u.raw_full_name.getD "",
    role := vrole, status := "active", schema_name := vschema,
    created_at := now, updated_at := now }

/-- The DO UPDATE SET list of the first insert: email, full_name,
role := EXCLUDED.role, updated_at := now(). -/
def mainUpd (u : AuthUser) (vrole : String) (now : Nat) (r : Profile) : Profile :=
  { r with email := u.email, full_name := u.raw_full_name.getD "",
           role := vrole, updated_at := now }

/-- The VALUES tuple of a replication insert into tenant `tschema`
(role is the literal 'admin'). -/
def replRow (u : AuthUser) (tschema : String) (now : Nat) : Profile :=
  { id := u.id, email := u.email, full_name := u.raw_full_name.getD "",
    role := "admin", status := "active", schema_name := tschema,
    created_at := now, updated_at := now }

/-- The DO UPDATE SET list of a replication insert: email, full_name,
role := 'admin', updated_at := now(). -/
def replUpd (u : AuthUser) (now : Nat) (r : Profile) : Profile :=
  { r with email := u.email, full_name := u.raw_full_name.getD "",
           role := "admin", updated_at := now }

/-- The trigger body of `handle_new_auth_user` (src/unnamed/part_000,
lines 8-131). -/
def handle_new_auth_user (u : AuthUser) (hdr : Option String) (now : Nat)
    (db : DB) : Option DB :=
  let v_schema := resolveSchema u hdr
  let v_role := resolveRole u v_schema db
  match getPart db v_schema with
  | none => none
  | some part =>
    let db1 := setPart db v_schema
      (upsert part (mainRow u v_schema v_role now) (mainUpd u v_role now))
    let db2 :=
      if v_role == "admin" && v_schema != "quimicinter" then
        { db1 with quimicinter := upsert db1.quimicinter (replRow u "quimicinter" now) (replUpd u now) }
      else db1
    let db3 :=
      if v_role == "admin" && v_schema != "qalinkforce" then
        { db2 with qalinkforce := upsert db2.qalinkforce (replRow u "qalinkforce" now) (replUpd u now) }
      else db2
    some db3

/-- The rows produced by the `user_info` CTE: the three partitions
filtered by `id = user_id`, in the syntactic `UNION ALL` order. -/
def userRows (db : DB) (uid : Nat) : List Profile :=
  db.pub.filter (fun p => p.id == uid)
    ++ db.quimicinter.filter (fun p => p.id == uid)
    ++ db.qalinkforce.filter (fun p => p.id == uid)

/-- `validate_login_access` (src/unnamed/part_000, lines 140-184):
`SELECT ... LIMIT 1` into `v_role, v_user_schema`; NULL role denies;
'admin' allows; otherwise the stored schema must equal `p_schema`. -/
def validate_login_access (db : DB) (user_id : Nat) (p_schema : String) : Bool :=
  match (userRows db user_id).head? with
  | none => false
  | some r => if r.role == "admin" then true else r.schema_name == p_schema

/-- A partition contains a row for `uid` with role 'admin'. -/
def hasAdminRow (l : List Profile) (uid : Nat) : Prop :=
  ∃ p ∈ l, p.id = uid ∧ p.role = "admin"

/-! ## Part 2: the invoice list view model (InvoiceList.tsx) -/

/-- `invoice_status`: the enumerated status column (draft | issued | voided). -/
inductive InvStatus where
  | draft
  | issued
  | voided
deriving DecidableEq

/-- An invoice row with the fields the component reads.  `customer` is the
optionally-joined customer name (`invoice.customer?.full_name`);
`payment_status` is one of "pending" / "partial" / "paid". -/
structure Invoice where
  id : Nat
  ncf : String
  customer : Option String
  issue_date : Nat
  status : InvStatus
  payment_status : String
  total_amount : Int
deriving DecidableEq

/-- `STATUS_ORDER = \x7b draft: 0, issued: 1, voided: 2 \x7d`. -/
def STATUS_ORDER : InvStatus → Nat
  | .draft => 0
  | .issued => 1
  | .voided => 2

/-- `PAYMENT_STATUS_ORDER`; an unknown key gives `undefined`, i.e. `none`. -/
def PAYMENT_STATUS_ORDER (s : String) : Option Nat :=
  if s = "pending" then some 0
  else if s = "partial" then some 1
  else if s = "paid" then some 2
  else none

/-- Sort direction: 'asc' | 'desc'. -/
inductive SortDir where
  | asc
  | desc
deriving DecidableEq

/-- The `sortConfig` state: column key and direction. -/
structure SortConfig where
  key : String
  direction : SortDir
deriving DecidableEq

/-- The outcome of a JavaScript `<` / `>` comparison pair on two values. -/
def ordNat (x y : Nat) : Ordering :=
  if x < y then .lt else if y < x then .gt else .eq

/-- String comparison via native `<` / `>` ordering. -/
def ordStr (x y : String) : Ordering :=
  if x < y then .lt else if y < x then .gt else .eq

/-- Numeric comparison on currency amounts. -/
def ordInt (x y : Int) : Ordering :=
  if x < y then .lt else if y < x then .gt else .eq

/-- Comparison of possibly-`undefined` rank values: in JavaScript both
`undefined < x` and `undefined > x` are false, so the comparator
returns 0 whenever either side is `undefined`. -/
def ordOptNat : Option Nat → Option Nat → Ordering
  | some x, some y => ordNat x y
  | _, _ => .eq

/-- The `switch (sortConfig.key)` of `loadInvoices`, producing the
compared pair (`aValue`, `bValue`) as an `Ordering`.  The `default`
branch (dynamic property access) is unreachable from the UI: every
table header calls `handleSort` with one of the six keys below; it is
modelled as `.eq`. -/
def cmpKey (key : String) (a b : Invoice) : Ordering :=
  if key = "status" then ordNat (STATUS_ORDER a.status) (STATUS_ORDER b.status)
  else if key = "payment_status" then
    ordOptNat (PAYMENT_STATUS_ORDER a.payment_status) (PAYMENT_STATUS_ORDER b.payment_status)
  else if key = "customer" then ordStr (a.customer.getD "") (b.customer.getD "")
  else if key = "ncf" then ordStr a.ncf b.ncf
  else if key = "issue_date" then ordNat a.issue_date b.issue_date
  else if key = "total_amount" then ordInt a.total_amount b.total_amount
  else .eq

/-- `if (aValue < bValue) return direction === 'asc' ? -1 : 1; if
(aValue > bValue) return direction === 'asc' ? 1 : -1; return 0`. -/
def dirInt (d : SortDir) : Ordering → Int
  | .lt => if d = .asc then -1 else 1
  | .gt => if d = .asc then 1 else -1
  | .eq => 0

/-- The comparator passed to `filteredData.sort`. -/
def cmpInvoice (cfg : SortConfig) (a b : Invoice) : Int :=
  dirInt cfg.direction (cmpKey cfg.key a b)

/-- The total preorder induced by the comparator: `a` need not come
after `b` exactly when the comparator is non-positive. -/
abbrev sortRel (cfg : SortConfig) (a b : Invoice) : Prop :=
  cmpInvoice cfg a b ≤ 0

/-- `Array.prototype.sort` with the comparator: a stable sort by
`sortRel` (stable sorting by a consistent comparator has a unique
result, here computed by insertion sort). -/
def sortInvoices (cfg : SortConfig) (l : List Invoice) : List Invoice :=
  List.insertionSort (sortRel cfg) l

/-- The date-range filter of `loadInvoices`: applied only when both
bounds are set (non-empty strings). -/
def applyDateRange (sd ed : Option Nat) (l : List Invoice) : List Invoice :=
  match sd, ed with
  | some s, some e => l.filter (fun i => decide (s ≤ i.issue_date) && decide (i.issue_date ≤ e))
  | _, _ => l

/-- The category stage of `loadInvoices`: the default (no active filter)
keeps only issued and draft invoices; otherwise the `switch
(activeFilter)` applies; 'history' and the switch's silent fall-through
leave the list unchanged. -/
def applyCategory (af : String) (monthStart : Nat) (l : List Invoice) : List Invoice :=
  if af = "" then l.filter (fun i => i.status == .issued || i.status == .draft)
  else if af = "month" then
    l.filter (fun i => decide (monthStart ≤ i.issue_date) && i.status == .issued)
  else if af = "draft" then l.filter (fun i => i.status == .draft)
  else if af = "paid" then l.filter (fun i => i.payment_status == "paid" && i.status == .issued)
  else if af = "pending" then l.filter (fun i => i.payment_status != "paid" && i.status == .issued)
  else if af = "voided" then l.filter (fun i => i.status == .voided)
  else l

/-- The pure content of `loadInvoices`: fetched data, then the date
range filter, then the category stage, then the sort; the result is
stored in the `invoices` state. -/
def loadInvoicesResult (data : List Invoice) (af : String) (sd ed : Option Nat)
    (cfg : SortConfig) (monthStart : Nat) : List Invoice :=
  sortInvoices cfg (applyCategory af monthStart (applyDateRange sd ed data))

/-- `loadStats`: the invoices of the current calendar month. -/
def monthlyInvoices (data : List Invoice) (monthStart : Nat) : List Invoice :=
  data.filter (fun i => decide (monthStart ≤ i.issue_date))

/-- `loadStats`: the pending bucket — issued and not paid. -/
def statsPendingInvoices (data : List Invoice) (monthStart : Nat) : List Invoice :=
  (monthlyInvoices data monthStart).filter
    (fun i => i.status == .issued && i.payment_status != "paid")

/-- The component state touched by the handlers under scrutiny. -/
structure UIState where
  invoices : List Invoice
  search : String
  currentPage : Nat
  activeFilter : String
  startDate : Option Nat
  endDate : Option Nat
  sortConfig : SortConfig
deriving DecidableEq

/-- `handleFilter`: toggles the active filter, resets the page to 1, and
clears the date range unless the chosen filter is 'history'. -/
def handleFilter (f : String) (s : UIState) : UIState :=
  { s with
    activeFilter := if s.activeFilter = f then "" else f,
    currentPage := 1,
    startDate := if f ≠ "history" then none else s.startDate,
    endDate := if f ≠ "history" then none else s.endDate }

/-- `handleSort`: same key while ascending toggles to descending;
anything else starts ascending on the chosen key. -/
def handleSort (key : String) (s : UIState) : UIState :=
  { s with sortConfig :=
      { key := key,
        direction :=
          if s.sortConfig.key == key && s.sortConfig.direction == SortDir.asc
          then SortDir.desc else SortDir.asc } }

/-- The `onChange` of the start-date input: updates only `dateRange.startDate`. -/
def setStartDateInput (d : Option Nat) (s : UIState) : UIState :=
  { s with startDate := d }

/-- The `onChange` of the end-date input: updates only `dateRange.endDate`. -/
def setEndDateInput (d : Option Nat) (s : UIState) : UIState :=
  { s with endDate := d }

/-- The state after `loadInvoices` resolves against the current
filter/range/sort state. -/
def stateAfterLoad (data : List Invoice) (monthStart : Nat) (s : UIState) : UIState :=
  { s with invoices :=
      loadInvoicesResult data s.activeFilter s.startDate s.endDate s.sortConfig monthStart }

/-- The search predicate: case-insensitive substring match on the NCF or
the joined customer name (optional chaining yields no match when the
customer is absent). -/
def searchMatches (q : String) (i : Invoice) : Bool :=
  decide (q.toLower.data <:+: i.ncf.toLower.data) ||
    (match i.customer with
     | some c => decide (q.toLower.data <:+: c.toLower.data)
     | none => false)

/-- `filteredInvoices`: the search narrowing applied to the state list. -/
def filteredInvoices (s : UIState) : List Invoice :=
  s.invoices.filter (searchMatches s.search)

/-- `itemsPerPage = 30`. -/
def itemsPerPage : Nat := 30

/-- `paginatedInvoices = filteredInvoices.slice((page-1)*30, page*30)`. -/
def paginatedInvoices (s : UIState) : List Invoice :=
  ((filteredInvoices s).drop ((s.currentPage - 1) * itemsPerPage)).take itemsPerPage

/-- `handleExport`: calls `exportToCSV(invoices, 'invoices')` only when
the state list is non-empty; `some` carries the exported rows, `none`
means no export happened. -/
def handleExport (s : UIState) : Option (List Invoice) :=
  if s.invoices.length > 0 then some s.invoices else none

/-! ## Concrete instances used by counterexamples and witnesses -/

/-- The empty database: all three partitions empty. -/
def emptyDB : DB := { pub := [], quimicinter := [], qalinkforce := [] }

/-- Identity provisioned with metadata schema 'quimicinter' and role 'admin'
(the scenario of spec section 8). -/
def uAdminQuim : AuthUser :=
  { id := 1, email := "a@b.c", raw_schema_name := some "quimicinter",
    raw_role := some "admin", raw_full_name := none }

/-- A regular-user profile row in the default partition. -/
def rowUserPub : Profile :=
  { id := 1, email := "x@y.z", full_name := "", role := "user",
    status := "active", schema_name := "public", created_at := 0, updated_at := 0 }

/-- An administrator profile row in the quimicinter partition, same identity. -/
def rowAdminQuim : Profile :=
  { id := 1, email := "x@y.z", full_name := "", role := "admin",
    status := "active", schema_name := "quimicinter", created_at := 0, updated_at := 0 }

/-- A state where identity 1 has a non-admin default-partition row and an
admin quimicinter row. -/
def mixedRolesDB : DB :=
  { pub := [rowUserPub], quimicinter := [rowAdminQuim], qalinkforce := [] }

/-- A regular-user profile of identity 9 living in the quimicinter partition. -/
def rowQuimUser : Profile :=
  { id := 9, email := "q@q.q", full_name := "", role := "user",
    status := "active", schema_name := "quimicinter", created_at := 0, updated_at := 0 }

/-- A state where the quimicinter tenant already has one profile and the
default partition is empty. -/
def dbQuimOnly : DB := { pub := [], quimicinter := [rowQuimUser], qalinkforce := [] }

/-- A new identity with metadata schema 'quimicinter' and no explicit role. -/
def uNoRoleQuim : AuthUser :=
  { id := 2, email := "n@n.n", raw_schema_name := some "quimicinter",
    raw_role := none, raw_full_name := none }

/-- A single-profile state: identity 5 is a regular user of the default tenant. -/
def rowOnlyUser : Profile :=
  { id := 5, email := "u@u.u", full_name := "", role := "user",
    status := "active", schema_name := "public", created_at := 0, updated_at := 0 }

/-- Database holding only `rowOnlyUser`. -/
def dbOnlyUser : DB := { pub := [rowOnlyUser], quimicinter := [], qalinkforce := [] }

/-- An identity provisioned into the default tenant with explicit role
'admin' while a replication-tenant row for the same identity already exists. -/
def uAdminPub : AuthUser :=
  { id := 9, email := "new@q.q", raw_schema_name := some "public",
    raw_role := some "admin", raw_full_name := some "New Name" }

/-- A regular-user profile of identity 9 living in the qalinkforce partition. -/
def rowQalUser : Profile :=
  { id := 9, email := "k@k.k", full_name := "", role := "user",
    status := "active", schema_name := "qalinkforce", created_at := 0, updated_at := 0 }

/-- A state where the qalinkforce tenant already has one profile and the
other partitions are empty. -/
def dbQalOnly : DB := { pub := [], quimicinter := [], qalinkforce := [rowQalUser] }

/-- Two draft invoices: equal status rank, distinct rows. -/
def invDraftA : Invoice :=
  { id := 1, ncf := "A001", customer := none, issue_date := 10,
    status := .draft, payment_status := "pending", total_amount := 5 }

/-- Second draft invoice. -/
def invDraftB : Invoice :=
  { id := 2, ncf := "B001", customer := none, issue_date := 11,
    status := .draft, payment_status := "pending", total_amount := 6 }

/-- An issued invoice, used for a distinct-rank sort witness. -/
def invIssuedC : Invoice :=
  { id := 3, ncf := "C001", customer := some "ACME", issue_date := 12,
    status := .issued, payment_status := "partial", total_amount := 7 }

/-- A UI state with the 'paid' category filter active and no date range. -/
def sPaid : UIState :=
  { invoices := [invDraftA], search := "", currentPage := 3,
    activeFilter := "paid", startDate := none, endDate := none,
    sortConfig := { key := "status", direction := .asc } }

/-! ## Theorems -/

/-- Claim C4: the provisioning trigger resolves the target tenant as the
metadata field 'schema_name' if present, else the inbound header
'x-schema-name' if present, else the default tenant 'public'; in
particular, with no metadata and no header the resolved tenant is the
default tenant. -/
theorem resolveSchema_spec (u : AuthUser) (s h : String) (hdr : Option String) :
    resolveSchema { u with raw_schema_name := some s } hdr = s ∧
    resolveSchema { u with raw_schema_name := none } (some h) = h ∧
    resolveSchema { u with raw_schema_name := none } none = "public" :=
  ⟨rfl, rfl, rfl⟩

/-- Claim C5: with no active category filter and no date range, the loaded
invoice list contains an invoice iff it was fetched and its status is
draft or issued; hence a voided invoice never appears in the default view
and a draft invoice (whatever its payment status) does. -/
theorem default_filter_spec (data : List Invoice) (cfg : SortConfig) (m : Nat)
    (inv : Invoice) :
    inv ∈ loadInvoicesResult data "" none none cfg m ↔
      inv ∈ data ∧ (inv.status = InvStatus.draft ∨ inv.status = InvStatus.issued) := by
  unfold loadInvoicesResult sortInvoices applyDateRange applyCategory
  rw [List.mem_insertionSort]
  simp [List.mem_filter, or_comm]

/-- Claim C8: the 'pending' category filter keeps an invoice iff its
status is 'issued' and its payment status is not 'paid', and the pending
monthly statistic counts an invoice iff it belongs to the current month,
is 'issued' and is not 'paid'; 'partial' invoices qualify, draft and
voided ones never do. -/
theorem pending_filter_spec (data : List Invoice) (cfg : SortConfig) (m : Nat)
    (inv : Invoice) :
    (inv ∈ loadInvoicesResult data "pending" none none cfg m ↔
      inv ∈ data ∧ inv.status = InvStatus.issued ∧ inv.payment_status ≠ "paid") ∧
    (inv ∈ statsPendingInvoices data m ↔
      inv ∈ data ∧ m ≤ inv.issue_date ∧ inv.status = InvStatus.issued ∧
        inv.payment_status ≠ "paid") := by
  constructor
  · unfold loadInvoicesResult sortInvoices applyDateRange applyCategory
    rw [List.mem_insertionSort]
    simp [List.mem_filter, and_comm]
  · unfold statsPendingInvoices monthlyInvoices
    simp [List.mem_filter, and_assoc]
    tauto

/-- Claim C7 counterexample: with the 'paid' category filter active,
setting both date inputs leaves the active category filter (and the
current page) unchanged, so selecting a date range does not clear the
category filter. -/
theorem dateRange_not_clearing_cex :
    (setEndDateInput (some 20) (setStartDateInput (some 10) sPaid)).activeFilter = "paid" ∧
    (setEndDateInput (some 20) (setStartDateInput (some 10) sPaid)).startDate = some 10 ∧
    (setEndDateInput (some 20) (setStartDateInput (some 10) sPaid)).endDate = some 20 ∧
    (setEndDateInput (some 20) (setStartDateInput (some 10) sPaid)).currentPage = 3 ∧
    ("paid" : String) ≠ "" := by
  refine ⟨rfl, rfl, rfl, rfl, ?_⟩
  decide

/-- Claim C7 (amended): selecting a category filter other than full
history clears the date range, and any category selection resets the page
to 1 and toggles the filter; selecting a date range, however, leaves the
active category filter and the current page unchanged (the date inputs
update only the range). -/
theorem handleFilter_spec (s : UIState) (f : String) (d : Option Nat) :
    (f ≠ "history" →
      (handleFilter f s).startDate = none ∧ (handleFilter f s).endDate = none) ∧
    (handleFilter f s).currentPage = 1 ∧
    (handleFilter f s).activeFilter = (if s.activeFilter = f then "" else f) ∧
    (handleFilter "history" s).startDate = s.startDate ∧
    (handleFilter "history" s).endDate = s.endDate ∧
    (setStartDateInput d s).activeFilter = s.activeFilter ∧
    (setEndDateInput d s).activeFilter = s.activeFilter ∧
    (setStartDateInput d s).currentPage = s.currentPage ∧
    (setEndDateInput d s).currentPage = s.currentPage := by
  refine ⟨fun h => ⟨by simp [handleFilter, h], by simp [handleFilter, h]⟩,
    rfl, rfl, by simp [handleFilter], by simp [handleFilter], rfl, rfl, rfl, rfl⟩

/-- Claim C7 witness: selecting the 'draft' filter from `sPaid` clears
both bounds of the date range. -/
theorem handleFilter_spec_witness :
    (handleFilter "draft" sPaid).startDate = none ∧
    (handleFilter "draft" sPaid).endDate = none :=
  (handleFilter_spec sPaid "draft" none).1 (by decide)

/-- Claim C10: the CSV export action exports exactly the category/date
filtered and sorted list held in state — independent of the search text
and the current page — and exports nothing when that list is empty. -/
theorem handleExport_spec (data : List Invoice) (m : Nat) (s : UIState) :
    (handleExport (stateAfterLoad data m s) =
      if loadInvoicesResult data s.activeFilter s.startDate s.endDate s.sortConfig m = []
      then none
      else some (loadInvoicesResult data s.activeFilter s.startDate s.endDate s.sortConfig m)) ∧
    (∀ (q : String) (p : Nat),
      handleExport (stateAfterLoad data m { s with search := q, currentPage := p }) =
        handleExport (stateAfterLoad data m s)) := by
  constructor
  · show (if (loadInvoicesResult data s.activeFilter s.startDate s.endDate s.sortConfig m).length > 0
        then some (loadInvoicesResult data s.activeFilter s.startDate s.endDate s.sortConfig m)
        else none) = _
    cases loadInvoicesResult data s.activeFilter s.startDate s.endDate s.sortConfig m <;> simp
  · intro q p
    rfl

/-- Claim C1 counterexample: identity 1 has an admin profile in the
quimicinter partition, yet `validate_login_access` for tenant
'qalinkforce' returns false, because the first row found (the non-admin
default-partition row) decides the outcome. -/
theorem validate_login_access_cex :
    hasAdminRow mixedRolesDB.quimicinter 1 ∧
    validate_login_access mixedRolesDB 1 "qalinkforce" = false := by
  constructor
  · exact ⟨rowAdminQuim, by decide, rfl, rfl⟩
  · decide

/-- Claim C1 (amended): when the identity's profile rows carry one
consistent role across the partitions, an admin profile anywhere grants
access to any tenant; an identity whose only profile is non-admin is
granted access iff that profile's tenant equals the requested one; and
with no profile anywhere access is denied.  (Without the consistency
premise the outcome is decided by the first row found.) -/
theorem validate_login_access_spec (db : DB) (uid : Nat) (s : String) :
    (userRows db uid = [] → validate_login_access db uid s = false) ∧
    ((∀ p ∈ userRows db uid, ∀ q ∈ userRows db uid, p.role = q.role) →
      (∃ p ∈ userRows db uid, p.role = "admin") →
      validate_login_access db uid s = true) ∧
    (∀ p : Profile, userRows db uid = [p] → p.role ≠ "admin" →
      (validate_login_access db uid s = true ↔ p.schema_name = s)) := by
  refine ⟨?_, ?_, ?_⟩
  · intro h
    unfold validate_login_access
    rw [h]
    rfl
  · rintro hcons ⟨p, hp, hrole⟩
    unfold validate_login_access
    cases hrows : userRows db uid with
    | nil => rw [hrows] at hp; cases hp
    | cons r t =>
      have hr : r.role = "admin" := by
        have := hcons r (by rw [hrows]; exact List.mem_cons_self r t) p hp
        rw [this, hrole]
      simp [hr]
  · intro p hp hnadmin
    unfold validate_login_access
    rw [hp]
    simp [List.head?, hnadmin]

/-- Claim C1 witness: a regular user of the default tenant (the only
profile of identity 5) is granted access exactly to the default tenant. -/
theorem validate_login_access_spec_witness :
    validate_login_access dbOnlyUser 5 "public" = true :=
  ((validate_login_access_spec dbOnlyUser 5 "public").2.2 rowOnlyUser rfl
    (by decide)).mpr rfl

/-- Claim C3 counterexample: the quimicinter tenant already holds a
profile, yet a new identity with no explicit role resolved to that
tenant is assigned 'admin' — the emptiness test looks only at the
default partition. -/
theorem resolveRole_cex :
    resolveSchema uNoRoleQuim none = "quimicinter" ∧
    dbQuimOnly.quimicinter ≠ [] ∧
    resolveRole uNoRoleQuim (resolveSchema uNoRoleQuim none) dbQuimOnly = "admin" := by
  refine ⟨rfl, ?_, rfl⟩
  decide

/-- Claim C3 (amended): for an identity with no explicit role, in
trigger-reachable states (every default-partition row carries
schema_name 'public'): a resolved default tenant receives 'admin' iff
the default partition is empty, while a resolved named business unit
always receives 'admin', regardless of that tenant's existing profiles. -/
theorem resolveRole_spec (u : AuthUser) (hdr : Option String) (db : DB)
    (hnorole : u.raw_role = none)
    (hreach : ∀ p ∈ db.pub, p.schema_name = "public") :
    (resolveSchema u hdr = "public" →
      (resolveRole u (resolveSchema u hdr) db = "admin" ↔ db.pub = [])) ∧
    (resolveSchema u hdr = "quimicinter" ∨ resolveSchema u hdr = "qalinkforce" →
      resolveRole u (resolveSchema u hdr) db = "admin") := by
  constructor
  · intro hs
    rw [hs]
    unfold resolveRole
    rw [hnorole]
    cases hdb : db.pub with
    | nil => simp
    | cons p t =>
      have hp : p.schema_name = "public" := hreach p (by rw [hdb]; exact List.mem_cons_self p t)
      simp [List.any_cons, hp]
  · intro hs
    have hnone : db.pub.any (fun p => p.schema_name == resolveSchema u hdr) = false := by
      rw [List.any_eq_false]
      intro p hp
      rcases hs with h | h <;> simp [hreach p hp, h]
    unfold resolveRole
    rw [hnorole]
    simp [hnone]

/-- Claim C3 witness: identity `uNoRoleQuim` resolved to quimicinter is
assigned 'admin' although that tenant already has a profile. -/
theorem resolveRole_spec_witness :
    resolveRole uNoRoleQuim (resolveSchema uNoRoleQuim none) dbQuimOnly = "admin" :=
  (resolveRole_spec uNoRoleQuim none dbQuimOnly rfl (by decide)).2 (Or.inl rfl)

/-- An upsert whose inserted row and conflict update both carry role
'admin' leaves an admin row for the inserted id in the partition. -/
lemma upsert_hasAdminRow (part : List Profile) (row : Profile) (upd : Profile → Profile)
    (hrow : row.role = "admin")
    (hupd : ∀ r, (upd r).id = r.id ∧ (upd r).role = "admin") :
    hasAdminRow (upsert part row upd) row.id := by
  unfold upsert hasAdminRow
  by_cases h : part.any (fun r => r.id == row.id)
  · rw [if_pos h]
    obtain ⟨r, hr, hrid⟩ := List.any_eq_true.mp h
    refine ⟨upd r, List.mem_map.mpr ⟨r, hr, by rw [if_pos hrid]⟩, ?_, (hupd r).2⟩
    rw [(hupd r).1]
    exact eq_of_beq hrid
  · rw [if_neg h]
    exact ⟨row, by simp, rfl, hrow⟩

/-- Claim C2 counterexample: provisioning an administrator with resolved
tenant 'quimicinter' into the empty database leaves no profile row at
all in the default partition, so no admin row exists in every known
tenant. -/
theorem admin_replication_cex :
    resolveSchema uAdminQuim none = "quimicinter" ∧
    resolveRole uAdminQuim (resolveSchema uAdminQuim none) emptyDB = "admin" ∧
    (handle_new_auth_user uAdminQuim none 7 emptyDB).map
      (fun d => d.pub.any (fun p => p.id == 1)) = some false := by
  exact ⟨rfl, rfl, rfl⟩

/-- Claim C2 (amended): after an admin provisioning into a known resolved
tenant, an admin profile row for the new identity exists in the resolved
tenant and in both tenants of the fixed replication set (quimicinter and
qalinkforce) — but not necessarily in the default tenant, so the
'every known tenant' invariant is guaranteed only when the resolved
tenant is the default one. -/
theorem admin_replication_spec (u : AuthUser) (hdr : Option String) (t : Nat) (db : DB)
    (hsch : resolveSchema u hdr = "public" ∨ resolveSchema u hdr = "quimicinter" ∨
      resolveSchema u hdr = "qalinkforce")
    (hrole : resolveRole u (resolveSchema u hdr) db = "admin") :
    ∃ d, handle_new_auth_user u hdr t db = some d ∧
      hasAdminRow ((getPart d (resolveSchema u hdr)).getD []) u.id ∧
      hasAdminRow d.quimicinter u.id ∧
      hasAdminRow d.qalinkforce u.id := by
  rcases hsch with h | h | h <;> rw [h] at hrole ⊢ <;>
    simp [handle_new_auth_user, h, hrole, getPart, setPart] <;>
    (repeat' apply And.intro) <;>
    exact upsert_hasAdminRow _ _ _ rfl fun r => ⟨rfl, rfl⟩

/-- Claim C2 witness: the spec's own scenario — admin provisioned with
metadata schema 'quimicinter' into the empty database; admin rows exist
in the resolved tenant and both replication tenants. -/
theorem admin_replication_spec_witness :
    ∃ d, handle_new_auth_user uAdminQuim none 7 emptyDB = some d ∧
      hasAdminRow ((getPart d (resolveSchema uAdminQuim none)).getD []) uAdminQuim.id ∧
      hasAdminRow d.quimicinter uAdminQuim.id ∧
      hasAdminRow d.qalinkforce uAdminQuim.id :=
  admin_replication_spec uAdminQuim none 7 emptyDB (Or.inr (Or.inl rfl)) rfl

/-- Claim C9: when an administrator is provisioned while one of the two
replication tenants (quimicinter or qalinkforce) already holds a row for
the same identity and is not the resolved tenant, that tenant's
replication upsert maps the row to one with role 'admin', the new email,
full name and updated timestamp, while id, status, schema_name and
created timestamp are untouched (and other rows are left alone); stated
once for each replication tenant. -/
theorem replication_upsert_overwrite (u : AuthUser) (hdr : Option String) (t : Nat) (db : DB)
    (hrole : resolveRole u (resolveSchema u hdr) db = "admin") :
    (db.quimicinter.any (fun r => r.id == u.id) = true →
      resolveSchema u hdr = "public" ∨ resolveSchema u hdr = "qalinkforce" →
      ∃ d, handle_new_auth_user u hdr t db = some d ∧
        d.quimicinter = db.quimicinter.map (fun r =>
          if r.id == u.id then
            { r with email := u.email, full_name := u.raw_full_name.getD "",
                     role := "admin", updated_at := t }
          else r)) ∧
    (db.qalinkforce.any (fun r => r.id == u.id) = true →
      resolveSchema u hdr = "public" ∨ resolveSchema u hdr = "quimicinter" →
      ∃ d, handle_new_auth_user u hdr t db = some d ∧
        d.qalinkforce = db.qalinkforce.map (fun r =>
          if r.id == u.id then
            { r with email := u.email, full_name := u.raw_full_name.getD "",
                     role := "admin", updated_at := t }
          else r)) := by
  constructor
  · intro hex hsch
    rcases hsch with h | h <;> rw [h] at hrole <;>
      simp [handle_new_auth_user, h, hrole, getPart, setPart, upsert, replRow, replUpd, hex]
  · intro hex hsch
    rcases hsch with h | h <;> rw [h] at hrole <;>
      simp [handle_new_auth_user, h, hrole, getPart, setPart, upsert, replRow, replUpd, hex]

/-- Claim C9 witness: identity 9, previously a regular user of a
replication tenant, is provisioned as administrator of the default
tenant; its pre-existing quimicinter (respectively qalinkforce) row is
overwritten to role 'admin' with the new email and name. -/
theorem replication_upsert_overwrite_witness :
    (∃ d, handle_new_auth_user uAdminPub none 42 dbQuimOnly = some d ∧
      d.quimicinter = dbQuimOnly.quimicinter.map (fun r =>
        if r.id == uAdminPub.id then
          { r with email := uAdminPub.email,
                   full_name := uAdminPub.raw_full_name.getD "",
                   role := "admin", updated_at := 42 }
        else r)) ∧
    (∃ d, handle_new_auth_user uAdminPub none 43 dbQalOnly = some d ∧
      d.qalinkforce = dbQalOnly.qalinkforce.map (fun r =>
        if r.id == uAdminPub.id then
          { r with email := uAdminPub.email,
                   full_name := uAdminPub.raw_full_name.getD "",
                   role := "admin", updated_at := 43 }
        else r)) :=
  ⟨(replication_upsert_overwrite uAdminPub none 42 dbQuimOnly rfl).1 (by decide) (Or.inl rfl),
   (replication_upsert_overwrite uAdminPub none 43 dbQalOnly rfl).2 (by decide) (Or.inl rfl)⟩

/-- The comparator preorder for the status column ascending is the
status-rank order. -/
lemma sortRel_status_asc (a b : Invoice) :
    sortRel ⟨"status", SortDir.asc⟩ a b ↔
      STATUS_ORDER a.status ≤ STATUS_ORDER b.status := by
  show cmpInvoice _ a b ≤ 0 ↔ _
  unfold cmpInvoice cmpKey ordNat
  simp only [reduceIte]
  split_ifs with h1 h2 <;> simp [dirInt] <;> omega

/-- The comparator preorder for the status column descending is the
reversed status-rank order. -/
lemma sortRel_status_desc (a b : Invoice) :
    sortRel ⟨"status", SortDir.desc⟩ a b ↔
      STATUS_ORDER b.status ≤ STATUS_ORDER a.status := by
  show cmpInvoice _ a b ≤ 0 ↔ _
  unfold cmpInvoice cmpKey ordNat
  simp only [reduceIte]
  split_ifs with h1 h2 <;> simp [dirInt] <;> omega

/-- Claim C6 counterexample: two draft invoices tie on status rank; the
stable sort keeps their original order in both directions, so the
descending sort is not the reverse of the ascending one. -/
theorem status_sort_desc_cex :
    sortInvoices ⟨"status", SortDir.desc⟩ [invDraftA, invDraftB] ≠
      (sortInvoices ⟨"status", SortDir.asc⟩ [invDraftA, invDraftB]).reverse := by
  decide

/-- Claim C6 (amended): sorting by the status column descending is the
exact reverse of the ascending ordering whenever no two invoices in the
list share a status rank; with rank ties the stable sort preserves the
prior relative order in both directions, so the exact-reverse relation
fails (see the counterexample). -/
theorem status_sort_desc_eq_reverse_asc (l : List Invoice)
    (hdist : l.Pairwise (fun a b => STATUS_ORDER a.status ≠ STATUS_ORDER b.status)) :
    sortInvoices ⟨"status", SortDir.desc⟩ l =
      (sortInvoices ⟨"status", SortDir.asc⟩ l).reverse := by
  have pA : List.Perm (sortInvoices ⟨"status", SortDir.asc⟩ l) l :=
    List.perm_insertionSort _ l
  have pD : List.Perm (sortInvoices ⟨"status", SortDir.desc⟩ l) l :=
    List.perm_insertionSort _ l
  letI : IsTotal Invoice (sortRel ⟨"status", SortDir.asc⟩) :=
    ⟨fun a b => by rw [sortRel_status_asc, sortRel_status_asc]; omega⟩
  letI : IsTrans Invoice (sortRel ⟨"status", SortDir.asc⟩) :=
    ⟨fun a b c hab hbc => by
      rw [sortRel_status_asc] at hab hbc ⊢; omega⟩
  letI : IsTotal Invoice (sortRel ⟨"status", SortDir.desc⟩) :=
    ⟨fun a b => by rw [sortRel_status_desc, sortRel_status_desc]; omega⟩
  letI : IsTrans Invoice (sortRel ⟨"status", SortDir.desc⟩) :=
    ⟨fun a b c hab hbc => by
      rw [sortRel_status_desc] at hab hbc ⊢; omega⟩
  have sA : (sortInvoices ⟨"status", SortDir.asc⟩ l).Pairwise
      (fun a b => STATUS_ORDER a.status ≤ STATUS_ORDER b.status) :=
    (List.sorted_insertionSort _ l).imp (fun h => (sortRel_status_asc _ _).mp h)
  have sD : (sortInvoices ⟨"status", SortDir.desc⟩ l).Pairwise
      (fun a b => STATUS_ORDER b.status ≤ STATUS_ORDER a.status) :=
    (List.sorted_insertionSort _ l).imp (fun h => (sortRel_status_desc _ _).mp h)
  have sRev : ((sortInvoices ⟨"status", SortDir.asc⟩ l).reverse).Pairwise
      (fun a b => STATUS_ORDER b.status ≤ STATUS_ORDER a.status) :=
    List.pairwise_reverse.mpr sA
  have dD : (sortInvoices ⟨"status", SortDir.desc⟩ l).Pairwise
      (fun a b => STATUS_ORDER a.status ≠ STATUS_ORDER b.status) :=
    (pD.pairwise_iff (fun h => Ne.symm h)).mpr hdist
  have dA : (sortInvoices ⟨"status", SortDir.asc⟩ l).Pairwise
      (fun a b => STATUS_ORDER a.status ≠ STATUS_ORDER b.status) :=
    (pA.pairwise_iff (fun h => Ne.symm h)).mpr hdist
  have dRev : ((sortInvoices ⟨"status", SortDir.asc⟩ l).reverse).Pairwise
      (fun a b => STATUS_ORDER a.status ≠ STATUS_ORDER b.status) :=
    List.pairwise_reverse.mpr (dA.imp fun h => Ne.symm h)
  have strictD : (sortInvoices ⟨"status", SortDir.desc⟩ l).Pairwise
      (fun a b => STATUS_ORDER b.status < STATUS_ORDER a.status) :=
    (sD.and dD).imp (fun h => by omega)
  have strictRev : ((sortInvoices ⟨"status", SortDir.asc⟩ l).reverse).Pairwise
      (fun a b => STATUS_ORDER b.status < STATUS_ORDER a.status) :=
    (sRev.and dRev).imp (fun h => by omega)
  have pp : List.Perm (sortInvoices ⟨"status", SortDir.desc⟩ l)
      ((sortInvoices ⟨"status", SortDir.asc⟩ l).reverse) :=
    pD.trans (pA.symm.trans (sortInvoices ⟨"status", SortDir.asc⟩ l).reverse_perm.symm)
  letI : IsAntisymm Invoice (fun a b => STATUS_ORDER b.status < STATUS_ORDER a.status) :=
    ⟨fun a b h1 h2 => absurd (Nat.lt_trans h1 h2) (Nat.lt_irrefl _)⟩
  exact List.eq_of_perm_of_sorted pp strictD strictRev

/-- Claim C6 witness: on a list of one draft and one issued invoice (all
status ranks distinct), the descending sort is the reverse of the
ascending sort. -/
theorem status_sort_desc_eq_reverse_asc_witness :
    sortInvoices ⟨"status", SortDir.desc⟩ [invDraftA, invIssuedC] =
      (sortInvoices ⟨"status", SortDir.asc⟩ [invDraftA, invIssuedC]).reverse :=
  status_sort_desc_eq_reverse_asc [invDraftA, invIssuedC] (by decide)

end CRM
